import Mathlib

/-!
Shallow embedding of the polyadicQML training framework
(src/polyadicqml/quantumClassifier.py and src/polyadicqml/manyq/mqBuilder.py).

Reals appearing in the Python code (numpy floats) are modelled as rationals;
the training-loop claims under study are control-flow properties that do not
depend on real-versus-rational arithmetic.  The external optimizer
(scipy.optimize.minimize) is modelled as an oracle trace of events: objective
evaluations (with the minibatch indices that np.random.choice drew and the
parameter vector the optimizer probes) and optimizer-iteration callbacks,
together with the final iterate the optimizer reports.
-/

namespace PolyQML

/-- Python int() truncation of a rational toward zero, as applied in
`int(nbshots_increment * nbshots)` (quantumClassifier.py line 105). -/
def truncQ (q : ℚ) : ℤ :=
  if 0 ≤ q then ⌊q⌋ else -⌊-q⌋

/-- The shot-adaptation policy dispatch of `Classifier.__init__`
(quantumClassifier.py lines 102-111).  The Python code dispatches on the
runtime type of `nbshots_increment` (None / float / int / callable); the
four cases are represented by the four constructors. -/
inductive ShotPolicy where
  | identity : ShotPolicy
  | multiplicative (incr : ℚ) : ShotPolicy
  | additive (incr : ℤ) : ShotPolicy
  | custom (f : Option ℤ → ℕ → Option ℚ → Option ℤ) : ShotPolicy

/-- The comparison `loss_value < self.__min_loss__` (line 385), where
`__min_loss__` starts at `np.inf` (modelled as `none`). -/
def lossLt (l : ℚ) : Option ℚ → Bool
  | none => true
  | some m => decide (l < m)

/-- The `self.nbshots_increment` closures built in `Classifier.__init__`
(lines 102-111), applied to `(nbshots, n_iter, loss_value)`.
For the float and int primitives the source lambdas act on the raw
`nbshots` value; when `nbshots` is None those lambdas would raise a
TypeError in Python — that combination is modelled via `Option.map` and is
exercised by no theorem below. -/
def shotIncrement (delay : ℕ) : ShotPolicy → Option ℤ → ℕ → Option ℚ → Option ℤ
  | .identity, s, _, _ => s
  | .multiplicative incr, s, n, _ =>
      if n % delay = 0 then s.map (fun v => truncQ (incr * (v : ℚ))) else s
  | .additive incr, s, n, _ =>
      if n % delay = 0 then s.map (fun v => v + incr) else s
  | .custom f, s, n, m => f s n m

/-- The backend-circuit contract consumed by the classifier
(`circuit.run(X, params, nbshots, job_size)`, quantumClassifier.py line 209).
The backend (circuitML and its subclasses) is an external collaborator; its
`run` is an opaque function of the input matrix, the parameter vector, the
shot budget and the job size.  `random_params` is not modelled: the
construction embedding below takes the initial parameter vector explicitly. -/
structure CircuitML where
  run : List (List ℚ) → List ℚ → Option ℤ → Option ℕ → List (List ℚ)

/-- State of a `Classifier` (quantumClassifier.py lines 56-138).
Field names follow the Python attributes, dunders stripped:
`nbshots_increment` holds `self.nbshots_increment` as a `ShotPolicy`,
`loss_fun` is `self.__loss__`, `min_loss` is `self.__min_loss__` with
`none` standing for its `np.inf` initial value, and so on.
Fields with no bearing on any claim are omitted: `__budget__` (used only
for the progress bar and the default optimizer options), `__name__`,
`__save_path__` and `__info__` (metadata only).  `__n_iter__` is created at
`fit` entry and deleted at `fit` exit in the source; it is modelled as a
plain counter field. -/
structure Classifier where
  circuit : CircuitML
  bitstr : List ℤ
  params : List ℚ
  nbshots : Option ℤ
  nbshots_increment : ShotPolicy
  nbshots_incr_delay : ℕ
  loss_fun : List ℚ → List (List ℚ) → List ℚ → ℚ
  job_size : Option ℕ
  min_loss : Option ℚ
  last_loss_value : Option ℚ
  last_output : Option (List (List ℚ))
  last_params : Option (List ℚ)
  loss_progress : List (Option ℚ)
  output_progress : List (List (List ℚ))
  params_progress : List (List ℚ)
  nfev : ℕ
  n_iter : ℕ

/-- Python truthiness test `if self.nbshots:` (line 229): None and 0 are
falsy, any other integer is truthy. -/
def shotsTruthy : Option ℤ → Bool
  | none => false
  | some k => decide (k ≠ 0)

/-- numpy column selection `out[:, b]` for one row: a non-negative index
selects that column, a negative index wraps from the end.  An index out of
range raises in numpy; that path is modelled by the `getD` default and is
reached by no theorem below. -/
def pyIndexRow (row : List ℚ) (b : ℤ) : ℚ :=
  if 0 ≤ b then row.getD b.toNat 0
  else row.getD (row.length - (-b).toNat) 0

/-- `Classifier.run_circuit` (lines 189-210): defaults `params` to
`self.params`, increments `self.nfev` and runs the backend circuit with the
current shot budget and job size.  Returns the outcome matrix together with
the updated classifier. -/
def run_circuit (c : Classifier) (X : List (List ℚ)) (params : Option (List ℚ)) :
    List (List ℚ) × Classifier :=
  let p := params.getD c.params
  (c.circuit.run X p c.nbshots c.job_size, { c with nfev := c.nfev + 1 })

/-- `Classifier.predict_proba` (lines 212-232): runs the circuit, divides by
the shot count when the budget is truthy, and selects the `bitstr` columns
in declared order. -/
def predict_proba (c : Classifier) (X : List (List ℚ)) (params : Option (List ℚ)) :
    List (List ℚ) × Classifier :=
  let pr := run_circuit c X params
  let out := pr.1
  let out := if shotsTruthy c.nbshots
    then out.map (fun row => row.map (fun v => v / ((c.nbshots.getD 0 : ℤ) : ℚ)))
    else out
  (out.map (fun row => c.bitstr.map (pyIndexRow row)), pr.2)

/-- `np.argmax` over one row (line 247): index of the first maximal entry;
ties resolve to the lowest index.  np.argmax raises on an empty row; the
model returns 0 there, a path reached by no theorem below. -/
def argmaxRow (row : List ℚ) : ℕ :=
  (List.range row.length).foldl
    (fun best i => if row.getD i 0 > row.getD best 0 then i else best) 0

/-- `Classifier.proba_to_label` (lines 234-247): row-wise argmax. -/
def proba_to_label (proba : List (List ℚ)) : List ℕ :=
  proba.map argmaxRow

/-- `Classifier.predict` (lines 249-262): labels of `predict_proba` at the
model parameters, returned with the updated classifier. -/
def predict (c : Classifier) (X : List (List ℚ)) : List ℕ × Classifier :=
  let pr := predict_proba c X none
  (proba_to_label pr.1, pr.2)

/-- `Classifier.__call__` (lines 264-280): same as `predict`. -/
def call_operator (c : Classifier) (X : List (List ℚ)) : List ℕ × Classifier :=
  predict c X

/-! ## Construction (`Classifier.__init__`, lines 56-138) -/

/-- An element of the `bitstr` constructor argument: a Python int or a
Python string. -/
inductive BitstrElem where
  | int (n : ℤ) : BitstrElem
  | str (s : String) : BitstrElem
deriving DecidableEq

/-- Whether a `bitstr` element is an int (`isinstance(i, int)`). -/
def BitstrElem.isInt : BitstrElem → Bool
  | .int _ => true
  | .str _ => false

/-- Whether a `bitstr` element is a string (`isinstance(i, str)`). -/
def BitstrElem.isStr : BitstrElem → Bool
  | .int _ => false
  | .str _ => true

/-- Value of a binary digit character, `none` on any other character. -/
def binDigit : Char → Option ℕ
  | '0' => some 0
  | '1' => some 1
  | _ => none

/-- Python `int(s, 2)` (line 83) on a plain string of binary digits;
`none` models the ValueError raised on an empty string or on a non-digit
character.  CPython extras (sign characters, underscores, a 0b marker) are
accepted by `int` but appear in no claim and are not modelled. -/
def parseBinStr (s : String) : Option ℕ :=
  if s.isEmpty then none
  else s.toList.foldl
    (fun acc ch => do
      let a ← acc
      let d ← binDigit ch
      pure (2 * a + d))
    (some 0)

/-- The bitstr validation and conversion of `Classifier.__init__`
(lines 73-85): dispatch on the type of `bitstr[0]` (IndexError on an empty
list), demand homogeneous typing (TypeError otherwise), and convert binary
strings to integer codes with `int(bit, 2)`. -/
def convert_bitstr (bs : List BitstrElem) : Except String (List ℤ) :=
  match bs.head? with
  | none => .error "IndexError"
  | some (.int _) =>
      if bs.all BitstrElem.isInt then
        .ok (bs.map (fun b => match b with | .int n => n | .str _ => 0))
      else .error "TypeError: All bitstrings must have the same type"
  | some (.str _) =>
      if bs.all BitstrElem.isStr then
        match bs.mapM (fun b => match b with | .int _ => none | .str s => parseBinStr s) with
        | some l => .ok (l.map (fun n => (n : ℤ)))
        | none => .error "ValueError"
      else .error "TypeError: All bitstrings must have the same type"

/-- `Classifier.__init__` (lines 56-138): converts `bitstr`, normalizes a
non-positive shot count to None (lines 94-95), defaults the increment delay
to 20 (line 100), installs the shot policy, and initializes `__min_loss__`
to infinity (`none`), the last-value fields to None, the progress logs to
empty and `nfev` to 0.  The `params is None` default calls
`circuit.random_params()`; randomness is not shallow-embeddable, so the
model takes the initial parameter vector explicitly.  Python type checks on
`nbshots`, `nbshots_incr_delay` and `budget` are enforced by the Lean
types. -/
def mkClassifier (circuit : CircuitML) (bs : List BitstrElem) (params : List ℚ)
    (nbshots0 : Option ℤ) (delay0 : Option ℕ) (pol : ShotPolicy)
    (loss_fun : List ℚ → List (List ℚ) → List ℚ → ℚ) (job_size : Option ℕ) :
    Except String Classifier :=
  match convert_bitstr bs with
  | .error e => .error e
  | .ok bitstr =>
      let nbshots := match nbshots0 with
        | none => none
        | some k => if k < 1 then none else some k
      .ok
        { circuit := circuit
          bitstr := bitstr
          params := params
          nbshots := nbshots
          nbshots_increment := pol
          nbshots_incr_delay := delay0.getD 20
          loss_fun := loss_fun
          job_size := job_size
          min_loss := none
          last_loss_value := none
          last_output := none
          last_params := none
          loss_progress := []
          output_progress := []
          params_progress := []
          nfev := 0
          n_iter := 0 }

/-! ## Training (`Classifier.fit` and `Classifier.__callback__`, lines 294-434) -/

/-- The keyword arguments of `fit` that steer control flow (lines 352-355):
the optimization method name, the `save_loss_progress` flag, and the
`save_output_progress` target.  In the source the latter is a file path
tested for truthiness; it is modelled as a flag, with the written artifact
returned as a value (`SavedArtifact` below).  `seed`, `batch_size`,
`options` and `bounds` feed only the random draw and the external
optimizer, both of which the event trace absorbs. -/
structure FitArgs where
  method : String
  save_loss_progress : Bool
  save_output_progress : Bool

/-- Python `str.lower()`, computed over the character list. -/
def pyLower (s : String) : String := String.mk (s.data.map Char.toLower)

/-- Python substring containment `needle in hay` for strings. -/
def isSubstrOf (needle hay : String) : Bool :=
  hay.toList.tails.any (fun t => needle.toList.isPrefixOf t)

/-- The callback-registration condition of line 404:
`method.lower() not in ('cobyla')`.  `('cobyla')` is a parenthesized
string, not a tuple, so the Python `in` is a substring test: the callback
is handed to the optimizer exactly when the lowercased method name is not a
substring of the string "cobyla". -/
def callbackRegistered (method : String) : Bool :=
  ! isSubstrOf (pyLower method) "cobyla"

/-- `Classifier.__callback__` (lines 294-316), invoked with the flag
arguments fit passes (lines 390 and 405-407): appends the last loss value
when either flag is truthy, appends the last output and the current
parameters when the output flag is truthy, and increments the iteration
counter.  The periodic `self.save()` (every 10 iterations when a save path
is configured) writes a file without changing any modelled state, and the
progress-bar update is display-only; neither is modelled.  When no
evaluation has happened yet `self.__last_output__` is None and the source
would raise on `.tolist()`; the `getD` default stands in for that
unreachable path. -/
def callback (a : FitArgs) (c : Classifier) (xk : List ℚ) : Classifier :=
  let c := if a.save_loss_progress || a.save_output_progress
    then { c with loss_progress := c.loss_progress ++ [c.last_loss_value] }
    else c
  let c := if a.save_output_progress
    then { c with output_progress := c.output_progress ++ [c.last_output.getD []],
                  params_progress := c.params_progress ++ [xk] }
    else c
  { c with n_iter := c.n_iter + 1 }

/-- Insert into a sorted list, keeping earlier elements first on ties. -/
def insertLe (key : ℕ → ℕ) (a : ℕ) : List ℕ → List ℕ
  | [] => [a]
  | b :: bs => if key a < key b then a :: b :: bs else b :: insertLe key a bs

/-- Sort by a key via insertion. -/
def sortByKey (key : ℕ → ℕ) : List ℕ → List ℕ
  | [] => []
  | a :: as => insertLe key a (sortByKey key as)

/-- `np.argsort(_indices)` (line 383): the permutation that sorts the drawn
index vector.  Minibatch indices are drawn without replacement, hence
distinct, so sorting stability is immaterial. -/
def argsortIdx (l : List ℕ) : List ℕ :=
  sortByKey (fun i => l.getD i 0) (List.range l.length)

/-- Insert a rational into a sorted duplicate-free list. -/
def insertUniqueQ (a : ℚ) : List ℚ → List ℚ
  | [] => [a]
  | b :: bs => if a < b then a :: b :: bs
    else if a = b then b :: bs
    else b :: insertUniqueQ a bs

/-- `np.unique(target_train)` (line 366): the sorted distinct labels. -/
def npUnique (l : List ℚ) : List ℚ :=
  l.foldl (fun acc a => insertUniqueQ a acc) []

/-- The shot-budget recomputation of `fit.to_optimize` lines 375-376:
`self.nbshots = self.nbshots_increment(self.nbshots, self.__n_iter__,
self.__min_loss__)`. -/
def shotUpdatedState (c : Classifier) : Classifier :=
  { c with nbshots := shotIncrement c.nbshots_incr_delay c.nbshots_increment
                        c.nbshots c.n_iter c.min_loss }

/-- The minibatch probability prediction of line 378,
`self.predict_proba(input_train[_indices], params)`, performed after the
shot-budget update. -/
def batchProbas (input_train : List (List ℚ)) (c : Classifier)
    (idx : List ℕ) (p : List ℚ) : List (List ℚ) :=
  (predict_proba (shotUpdatedState c) (idx.map (fun i => input_train.getD i []))
    (some p)).1

/-- The loss computation of lines 379-380:
`self.__loss__(target_train[_indices], probas, labels=_labels)`. -/
def batchLoss (input_train : List (List ℚ)) (target_train : List ℚ)
    (labels : List ℚ) (c : Classifier) (idx : List ℕ) (p : List ℚ) : ℚ :=
  c.loss_fun (idx.map (fun i => target_train.getD i 0))
    (batchProbas input_train c idx p) labels

/-- The classifier state after lines 375-383: budget recomputed, `nfev`
bumped by the circuit run inside `predict_proba`, last loss value and
index-sorted last output recorded. -/
def evalState (input_train : List (List ℚ)) (target_train : List ℚ)
    (labels : List ℚ) (c : Classifier) (idx : List ℕ) (p : List ℚ) : Classifier :=
  let c2 := (predict_proba (shotUpdatedState c)
    (idx.map (fun i => input_train.getD i [])) (some p)).2
  { c2 with
      last_loss_value := some (batchLoss input_train target_train labels c idx p)
      last_output := some ((argsortIdx idx).map
        (fun i => (batchProbas input_train c idx p).getD i [])) }

/-- Lines 385-392 of `fit.to_optimize`: commit the candidate parameters
when the loss value strictly improves on `self.__min_loss__`, then, when
the method is exactly "COBYLA", invoke the end-of-iteration callback
inline; the loss value is returned to the optimizer. -/
def commit_step (a : FitArgs) (c : Classifier) (p : List ℚ) (loss_value : ℚ) :
    Classifier × ℚ :=
  let c := if lossLt loss_value c.min_loss
    then { c with min_loss := some loss_value, params := p }
    else c
  let c := if a.method = "COBYLA" then callback a c p else c
  (c, loss_value)

/-- One objective evaluation, `fit.to_optimize` (lines 372-392), at the
minibatch indices `idx` that `np.random.choice` drew and the parameter
vector `p` the optimizer probes: the evaluation stage (lines 375-383)
followed by the commit stage (lines 385-392).  Returns the updated
classifier and the loss value handed back to the optimizer. -/
def to_optimize (input_train : List (List ℚ)) (target_train : List ℚ)
    (labels : List ℚ) (a : FitArgs) (c : Classifier)
    (idx : List ℕ) (p : List ℚ) : Classifier × ℚ :=
  commit_step a (evalState input_train target_train labels c idx p) p
    (batchLoss input_train target_train labels c idx p)

/-- One event of the abstracted optimizer run: an objective evaluation
(`to_optimize` call at the drawn minibatch indices and probed parameters)
or an end-of-iteration callback invocation by the optimizer with the
current iterate `xk`. -/
inductive OptEvent where
  | objCall (idx : List ℕ) (p : List ℚ) : OptEvent
  | iterEnd (xk : List ℚ) : OptEvent

/-- An abstracted `scipy.optimize.minimize` run: the interleaved sequence
of objective evaluations and optimizer-iteration callbacks, and the final
iterate `mini_out.x` the result carries. -/
structure OptRun where
  events : List OptEvent
  xFinal : List ℚ

/-- Dispatch of one optimizer event: an objective evaluation always runs
`to_optimize`; an optimizer-iteration callback reaches
`Classifier.__callback__` only when fit registered it (line 404-407). -/
def fitStep (input_train : List (List ℚ)) (target_train : List ℚ)
    (labels : List ℚ) (a : FitArgs) (c : Classifier) : OptEvent → Classifier
  | .objCall idx p => (to_optimize input_train target_train labels a c idx p).1
  | .iterEnd xk => if callbackRegistered a.method then callback a c xk else c

/-- The state mutation performed at fit entry (lines 357-361): only
`self.__n_iter__` is (re)set to 0.  The seed and the progress bar carry no
modelled state; the pre-call shot budget is captured in `fit` itself. -/
def fitEntry (c : Classifier) : Classifier :=
  { c with n_iter := 0 }

/-- The JSON artifact written at finalization when `save_output_progress`
is configured (lines 421-427): the output, labels, loss and params
histories at the moment of writing. -/
structure SavedArtifact where
  output : List (List (List ℚ))
  labels : List ℚ
  loss_value : List (Option ℚ)
  params : List (List ℚ)
deriving DecidableEq

/-- The classifier state after the optimizer loop and the final-parameter
commit (lines 409-411): fold the optimizer events from the entry state,
then set the authoritative parameters to the optimizer's final iterate
`mini_out.x`. -/
def fitLoopState (input_train : List (List ℚ)) (target_train : List ℚ)
    (a : FitArgs) (run : OptRun) (c0 : Classifier) : Classifier :=
  let c := (run.events).foldl
    (fitStep input_train target_train (npUnique target_train) a) (fitEntry c0)
  { c with params := run.xFinal }

/-- Finalization (lines 413-432): when an output-progress target is
configured, write the artifact and clear the output and params buffers
(lines 421-429, which clear `__output_progress__` and `__params_progress__`
but not `__loss_progress__`); then restore the shot budget to its pre-call
value (line 432).  The `__info__` bookkeeping (lines 413-415), the deletion
of `__n_iter__` and the progress-bar teardown (lines 417-419) touch no
modelled state. -/
def fitFinalize (target_train : List ℚ) (a : FitArgs) (savedShots : Option ℤ)
    (c : Classifier) : Classifier × Option SavedArtifact :=
  let art := if a.save_output_progress
    then some
      { output := c.output_progress
        labels := target_train
        loss_value := c.loss_progress
        params := c.params_progress }
    else none
  let c := if a.save_output_progress
    then { c with output_progress := [], params_progress := [] }
    else c
  ({ c with nbshots := savedShots }, art)

/-- The body of a completing `fit` call: entry, optimizer loop, final
parameter commit and finalization, with the pre-call shot budget captured
at entry (line 357) and restored at the end (line 432). -/
def fitBody (input_train : List (List ℚ)) (target_train : List ℚ)
    (a : FitArgs) (run : OptRun) (c0 : Classifier) :
    Classifier × Option SavedArtifact :=
  fitFinalize target_train a c0.nbshots
    (fitLoopState input_train target_train a run c0)

/-- `Classifier.fit` (lines 319-434).  The label-cardinality check of lines
366-368 raises a ValueError when the training set holds more distinct
labels than declared classes; a raising call is an `.error` (the source has
already set `__n_iter__` and the progress bar when it raises, a distinction
no claim observes).  A completing call returns the updated classifier and
the optional output-progress artifact. -/
def fit (input_train : List (List ℚ)) (target_train : List ℚ)
    (a : FitArgs) (run : OptRun) (c0 : Classifier) :
    Except String (Classifier × Option SavedArtifact) :=
  if (npUnique target_train).length > c0.bitstr.length
  then .error "ValueError: Too many labels"
  else .ok (fitBody input_train target_train a run c0)

/-! ## The manyq circuit builder (src/polyadicqml/manyq/mqBuilder.py)

The builder's own state is its qubit count (from the circuitBuilder base)
and the hidden accumulation string `__txt`.  The `mq.*` calls mutate the
global state of the external manyq simulator, an out-of-scope backend; only
the builder-visible effects are modelled. -/

structure MqBuilderS where
  nbqbits : ℕ
  txt : String

/-- Modelled from the spec: `circuitBuilder.__verify_index__` is defined in
src/polyadicqml/circuitBuilder.py, which is absent from the provided
sources — only its call sites in mqBuilder.py are present.  The spec says:
"Every placement validates indices in [0, nbqbits) and fails with an
out-of-range condition otherwise." -/
def verify_index (b : MqBuilderS) (idx : ℤ) : Except String Unit :=
  if 0 ≤ idx ∧ idx < (b.nbqbits : ℤ) then .ok () else .error "Index out of range"

/-- `mqBuilder.__single_input` (mqBuilder.py lines 50-56): validate the
index, apply SX-RZ-SX on the backend, and extend the debug string. -/
def single_input (b : MqBuilderS) (idx : ℤ) (theta : ℚ) : Except String MqBuilderS :=
  match verify_index b idx with
  | .error e => .error e
  | .ok _ => .ok { b with txt := (b.txt ++ "SX(" ++ toString idx ++ ")RZ("
      ++ toString idx ++ "," ++ toString theta ++ ")SX(" ++ toString idx ++ ")") }

/-- `mqBuilder.input` (lines 58-65) on a list argument: one `single_input`
per (index, parameter) pair, in order.  A parameter list shorter than the
index list raises an IndexError on `theta[p]` in Python; the `getD` default
stands in for that path, which no theorem reaches. -/
def input_gate (b : MqBuilderS) (idxs : List ℤ) (thetas : List ℚ) :
    Except String MqBuilderS :=
  idxs.enum.foldlM (fun bb pi => single_input bb pi.2 (thetas.getD pi.1 0)) b

/-- `mqBuilder.allin` (lines 67-71): the input gate on every qubit from a
parameter vector indexed by qubit. -/
def allin (b : MqBuilderS) (thetas : List ℚ) : Except String MqBuilderS :=
  (List.range b.nbqbits).foldlM
    (fun bb i => single_input bb (Int.ofNat i) (thetas.getD i 0)) b

/-- `mqBuilder.cz` (lines 73-81): validate both indices, apply CZ on the
backend, extend the debug string. -/
def cz (b : MqBuilderS) (a bq : ℤ) : Except String MqBuilderS :=
  match verify_index b a with
  | .error e => .error e
  | .ok _ =>
      match verify_index b bq with
      | .error e => .error e
      | .ok _ => .ok { b with txt := (b.txt ++ "CZ(" ++ toString a ++ ","
          ++ toString bq ++ ")") }

/-- `mqBuilder.fsim` (lines 84-92): validate both indices, apply fSIM on
the backend, extend the debug string (which records only the indices). -/
def fsim (b : MqBuilderS) (a bq : ℤ) (_theta _phi : ℚ) : Except String MqBuilderS :=
  match verify_index b a with
  | .error e => .error e
  | .ok _ =>
      match verify_index b bq with
      | .error e => .error e
      | .ok _ => .ok { b with txt := (b.txt ++ "fSIM(" ++ toString a ++ ","
          ++ toString bq ++ ")") }

/-- `mqBuilder.measure_all` (lines 43-48): backend measurement plus debug
string; no index to validate. -/
def measure_all (b : MqBuilderS) : Except String MqBuilderS :=
  .ok { b with txt := b.txt ++ "measure_all()" }

/-- Whether an `Except` computation succeeded. -/
def exceptOk {ε α : Type} : Except ε α → Bool
  | .ok _ => true
  | .error _ => false

/-- Decidable form of the spec's index range [0, nbqbits). -/
def inRangeB (b : MqBuilderS) (i : ℤ) : Bool :=
  decide (0 ≤ i ∧ i < (b.nbqbits : ℤ))

/-! ## Concrete instances used by witnesses and counterexamples -/

/-- A concrete backend: every output row is the singleton holding the first
probed parameter, so the loss oracle below can steer loss values through
the probed parameter vector. -/
def exCircuit : CircuitML :=
  ⟨fun X p _ _ => X.map (fun _ => [p.getD 0 0])⟩

/-- A concrete loss: the first entry of the first predicted row. -/
def exLoss : List ℚ → List (List ℚ) → List ℚ → ℚ :=
  fun _ ypred _ => (ypred.getD 0 []).getD 0 0

/-- A freshly constructed one-class classifier over `exCircuit` with exact
probabilities and the identity shot policy (the state `mkClassifier
exCircuit [.int 0] [0] none none .identity exLoss none` produces). -/
def exClassifier : Classifier :=
  { circuit := exCircuit
    bitstr := [0]
    params := [0]
    nbshots := none
    nbshots_increment := .identity
    nbshots_incr_delay := 20
    loss_fun := exLoss
    job_size := none
    min_loss := none
    last_loss_value := none
    last_output := none
    last_params := none
    loss_progress := []
    output_progress := []
    params_progress := []
    nfev := 0
    n_iter := 0 }

/-- COBYLA fit arguments with no saving. -/
def exArgsCobyla : FitArgs := ⟨"COBYLA", false, false⟩

/-- A one-evaluation optimizer run probing parameters [1] (producing loss 1
under `exCircuit`/`exLoss`) whose final iterate is [9]. -/
def exRunA : OptRun := ⟨[.objCall [0] [1]], [9]⟩

/-- Classifier with a growing shot budget: 100 shots, additive increment 10
every 2 iterations. -/
def c1ex : Classifier :=
  { exClassifier with nbshots := some 100,
                      nbshots_increment := .additive 5,
                      nbshots_incr_delay := 1 }

/-- BFGS fit arguments with no saving. -/
def exArgsBfgs : FitArgs := ⟨"BFGS", false, false⟩

/-- A two-evaluation, one-iteration optimizer run. -/
def c1run : OptRun := ⟨[.objCall [0] [1], .iterEnd [1], .objCall [0] [2]], [3]⟩

/-- The classifier state a first completed training call leaves behind:
parameters [9] (the final iterate of `exRunA`) and a stale minimum loss of
1 from that call's single evaluation. -/
def c2c1 : Classifier := (fitBody [[1]] [0] exArgsCobyla exRunA exClassifier).1

/-- A one-evaluation-one-iteration run used to probe history recording. -/
def c4run : OptRun := ⟨[.objCall [0] [1], .iterEnd [1]], [1]⟩

/-- A concrete backend returning empty outcome rows, used where only the
control flow of the training loop is observed. -/
def emptyCircuit : CircuitML :=
  ⟨fun X _ _ _ => X.map (fun _ => [])⟩

/-- Classifier whose shot policy adds 10 shots every 2nd iteration, with an
initial budget of 100 shots, over the control-flow-only backend. -/
def c5c0 : Classifier :=
  { exClassifier with circuit := emptyCircuit,
                      nbshots := some 100,
                      nbshots_increment := .additive 10,
                      nbshots_incr_delay := 2 }

/-- Formalization of claim C5's words, for comparison with the code: the
budget after `k` objective evaluations when it is recomputed on every
evaluation as a function of (current budget, number of objective calls so
far, best loss observed so far).  The comparison below uses an additive
policy, which ignores the loss argument, so the best-loss input may be held
fixed. -/
def shotsByCalls (delay : ℕ) (pol : ShotPolicy) (s0 : Option ℤ) (m : Option ℚ) :
    ℕ → Option ℤ
  | 0 => s0
  | k + 1 => shotIncrement delay pol (shotsByCalls delay pol s0 m k) k m

/-- COBYLA fit arguments with loss-progress saving. -/
def c6args : FitArgs := ⟨"COBYLA", true, false⟩

/-- The state after a completed training call that saved loss progress:
minimum loss 1 and a one-entry loss log. -/
def c6c1 : Classifier := (fitBody [[1]] [0] c6args exRunA exClassifier).1

/-- COBYLA fit arguments with output-progress saving configured. -/
def c8args : FitArgs := ⟨"COBYLA", false, true⟩

/-! ## Helper lemmas -/

/-- `__callback__` never touches the committed parameters. -/
theorem callback_params (a : FitArgs) (c : Classifier) (xk : List ℚ) :
    (callback a c xk).params = c.params := by
  simp only [callback]; split_ifs <;> rfl

/-- `__callback__` never touches the minimum loss. -/
theorem callback_min_loss (a : FitArgs) (c : Classifier) (xk : List ℚ) :
    (callback a c xk).min_loss = c.min_loss := by
  simp only [callback]; split_ifs <;> rfl

/-- `__callback__` never touches the shot budget. -/
theorem callback_nbshots (a : FitArgs) (c : Classifier) (xk : List ℚ) :
    (callback a c xk).nbshots = c.nbshots := by
  simp only [callback]; split_ifs <;> rfl

/-- `__callback__` only ever appends to the loss log. -/
theorem callback_loss_progress (a : FitArgs) (c : Classifier) (xk : List ℚ) :
    ∃ tail, (callback a c xk).loss_progress = c.loss_progress ++ tail := by
  simp only [callback]
  split_ifs <;>
    first
      | exact ⟨[c.last_loss_value], rfl⟩
      | exact ⟨[], (List.append_nil _).symm⟩

/-- The commit stage never touches the shot budget. -/
theorem commit_step_nbshots (a : FitArgs) (c : Classifier) (p : List ℚ) (L : ℚ) :
    (commit_step a c p L).1.nbshots = c.nbshots := by
  simp only [commit_step]
  split_ifs <;> simp [callback_nbshots]

/-- On strict improvement over the stored minimum loss, the commit stage
stores the candidate parameters and the new minimum. -/
theorem commit_step_commit (a : FitArgs) (c : Classifier) (p : List ℚ) (L : ℚ)
    (h : lossLt L c.min_loss = true) :
    (commit_step a c p L).1.params = p ∧
    (commit_step a c p L).1.min_loss = some L := by
  simp only [commit_step, h]
  split_ifs <;> exact ⟨by simp [callback_params], by simp [callback_min_loss]⟩

/-- Without strict improvement, the commit stage leaves the committed
parameters and the minimum loss unchanged. -/
theorem commit_step_skip (a : FitArgs) (c : Classifier) (p : List ℚ) (L : ℚ)
    (h : lossLt L c.min_loss = false) :
    (commit_step a c p L).1.params = c.params ∧
    (commit_step a c p L).1.min_loss = c.min_loss := by
  simp only [commit_step, h, Bool.false_eq_true, if_false]
  split_ifs <;> exact ⟨by simp [callback_params], by simp [callback_min_loss]⟩

/-- The commit stage only ever appends to the loss log. -/
theorem commit_step_loss_progress (a : FitArgs) (c : Classifier) (p : List ℚ) (L : ℚ) :
    ∃ tail, (commit_step a c p L).1.loss_progress = c.loss_progress ++ tail := by
  simp only [commit_step]
  split_ifs <;>
    first
      | exact callback_loss_progress a _ p
      | exact ⟨[], (List.append_nil _).symm⟩

/-- An objective evaluation only ever appends to the loss log. -/
theorem to_optimize_loss_progress (i : List (List ℚ)) (t l : List ℚ) (a : FitArgs)
    (c : Classifier) (idx : List ℕ) (p : List ℚ) :
    ∃ tail, (to_optimize i t l a c idx p).1.loss_progress = c.loss_progress ++ tail :=
  commit_step_loss_progress a (evalState i t l c idx p) p (batchLoss i t l c idx p)

/-- Any optimizer event only ever appends to the loss log. -/
theorem fitStep_loss_progress (i : List (List ℚ)) (t l : List ℚ) (a : FitArgs)
    (c : Classifier) (e : OptEvent) :
    ∃ tail, (fitStep i t l a c e).loss_progress = c.loss_progress ++ tail := by
  cases e with
  | objCall idx p => exact to_optimize_loss_progress i t l a c idx p
  | iterEnd xk =>
      simp only [fitStep]
      split_ifs
      · exact callback_loss_progress a c xk
      · exact ⟨[], (List.append_nil _).symm⟩

/-- The optimizer loop only ever appends to the loss log. -/
theorem foldl_loss_progress (i : List (List ℚ)) (t l : List ℚ) (a : FitArgs)
    (evs : List OptEvent) (c : Classifier) :
    ∃ tail, (evs.foldl (fitStep i t l a) c).loss_progress = c.loss_progress ++ tail := by
  induction evs generalizing c with
  | nil => exact ⟨[], (List.append_nil _).symm⟩
  | cons e es ih =>
      obtain ⟨t1, h1⟩ := fitStep_loss_progress i t l a c e
      obtain ⟨t2, h2⟩ := ih (fitStep i t l a c e)
      exact ⟨t1 ++ t2, by rw [List.foldl_cons, h2, h1, List.append_assoc]⟩

/-- The loop state of a training call extends the pre-call loss log. -/
theorem fitLoopState_loss_progress (i : List (List ℚ)) (t : List ℚ) (a : FitArgs)
    (run : OptRun) (c0 : Classifier) :
    ∃ tail, (fitLoopState i t a run c0).loss_progress = c0.loss_progress ++ tail := by
  obtain ⟨tl, hl⟩ := foldl_loss_progress i t (npUnique t) a run.events (fitEntry c0)
  exact ⟨tl, hl⟩

/-- Finalization restores the saved shot budget and preserves the
committed parameters, the loss log and the minimum loss. -/
theorem fitFinalize_frame (t : List ℚ) (a : FitArgs) (s : Option ℤ) (c : Classifier) :
    (fitFinalize t a s c).1.nbshots = s ∧
    (fitFinalize t a s c).1.params = c.params ∧
    (fitFinalize t a s c).1.loss_progress = c.loss_progress ∧
    (fitFinalize t a s c).1.min_loss = c.min_loss := by
  refine ⟨rfl, ?_, ?_, ?_⟩ <;>
    · simp only [fitFinalize]
      split_ifs <;> rfl

/-! ## Claims -/

/-- C1: for every training call that ends, the classifier's shot budget
(`nbshots`) equals its value from immediately before the call — whatever
the configured shot-adaptation policy did to it during the optimizer
loop.  The budget is captured at entry (line 357) and written back at the
end of `fit` (line 432). -/
theorem c1_nbshots_restored_after_fit (i : List (List ℚ)) (t : List ℚ) (a : FitArgs)
    (run : OptRun) (c0 : Classifier) (out : Classifier × Option SavedArtifact)
    (h : fit i t a run c0 = Except.ok out) : out.1.nbshots = c0.nbshots := by
  unfold fit at h
  split at h
  · exact absurd h (by simp)
  · injection h with h
    subst h
    exact (fitFinalize_frame t a c0.nbshots (fitLoopState i t a run c0)).1

/-- C1 witness: a completed two-evaluation training call under an additive
shot policy with delay 1 (the budget grows inside the loop) still ends with
the 100-shot pre-call budget. -/
theorem c1_nbshots_restored_witness :
    (fitBody [[1]] [0] exArgsBfgs c1run c1ex).1.nbshots = some 100 :=
  (c1_nbshots_restored_after_fit [[1]] [0] exArgsBfgs c1run c1ex
    (fitBody [[1]] [0] exArgsBfgs c1run c1ex) rfl).trans rfl

/-- C2 counterexample: after a first completed training call whose single
evaluation had loss 1, the first evaluation of a second call has loss 5 —
strictly below the per-call best-ever loss, which is infinity since no
earlier evaluation belongs to this call (`lossLt 5 none = true`) — yet the
candidate parameters [5] are not committed: the committed parameters stay
[9], because the code compares against `__min_loss__`, which is set to
infinity at construction only and still holds 1 from the previous call. -/
theorem c2_per_call_best_counterexample :
    fit [[1]] [0] exArgsCobyla exRunA exClassifier = Except.ok (c2c1, none) ∧
    c2c1.params = [9] ∧ c2c1.min_loss = some 1 ∧
    (to_optimize [[1]] [0] [0] exArgsCobyla (fitEntry c2c1) [0] [5]).2 = 5 ∧
    lossLt 5 none = true ∧
    (to_optimize [[1]] [0] [0] exArgsCobyla (fitEntry c2c1) [0] [5]).1.params = [9] ∧
    ([(9 : ℚ)] ≠ [(5 : ℚ)]) :=
  ⟨rfl, rfl, rfl, rfl, rfl, rfl, by decide⟩

/-- C2 amended: an objective evaluation commits the candidate parameters
(and updates the stored minimum) exactly when its loss value strictly
improves on `__min_loss__` — the best loss observed since the classifier
was constructed, across all its training calls — and leaves the committed
parameters and the stored minimum unchanged otherwise. -/
theorem c2_commit_on_lifetime_best (i : List (List ℚ)) (t l : List ℚ) (a : FitArgs)
    (c : Classifier) (idx : List ℕ) (p : List ℚ) :
    (lossLt (to_optimize i t l a c idx p).2 c.min_loss = true →
       (to_optimize i t l a c idx p).1.params = p ∧
       (to_optimize i t l a c idx p).1.min_loss = some (to_optimize i t l a c idx p).2) ∧
    (lossLt (to_optimize i t l a c idx p).2 c.min_loss = false →
       (to_optimize i t l a c idx p).1.params = c.params ∧
       (to_optimize i t l a c idx p).1.min_loss = c.min_loss) := by
  constructor
  · intro h
    exact commit_step_commit a (evalState i t l c idx p) p (batchLoss i t l c idx p) h
  · intro h
    exact commit_step_skip a (evalState i t l c idx p) p (batchLoss i t l c idx p) h

/-- C2 witness: a fresh classifier's first evaluation (loss 2, minimum
loss infinite) commits the probed parameters [2]. -/
theorem c2_commit_on_lifetime_best_witness :
    (to_optimize [[1]] [0] [0] exArgsCobyla exClassifier [0] [2]).1.params = [2] :=
  ((c2_commit_on_lifetime_best [[1]] [0] [0] exArgsCobyla exClassifier [0] [2]).1 rfl).1

/-- C3: every completing training call sets the model's parameters to the
optimizer's final reported iterate `mini_out.x` (line 411), and this is not
necessarily the best-observed vector: in the concrete run the single
evaluation committed the best-observed parameters [1] mid-call, yet the
call ends with the final iterate [9]. -/
theorem c3_final_params_are_optimizer_iterate :
    (∀ (i : List (List ℚ)) (t : List ℚ) (a : FitArgs) (run : OptRun)
      (c0 : Classifier) (out : Classifier × Option SavedArtifact),
      fit i t a run c0 = Except.ok out → out.1.params = run.xFinal) ∧
    (fitBody [[1]] [0] exArgsCobyla exRunA exClassifier).1.params = [9] ∧
    (to_optimize [[1]] [0] [0] exArgsCobyla (fitEntry exClassifier) [0] [1]).1.params = [1] ∧
    ([(9 : ℚ)] ≠ [(1 : ℚ)]) := by
  refine ⟨?_, rfl, rfl, by decide⟩
  intro i t a run c0 out h
  unfold fit at h
  split at h
  · exact absurd h (by simp)
  · injection h with h
    subst h
    exact (fitFinalize_frame t a c0.nbshots (fitLoopState i t a run c0)).2.1

/-- C3 witness: the concrete completed call of the theorem ends with the
optimizer's final iterate. -/
theorem c3_final_params_witness :
    (fitBody [[1]] [0] exArgsCobyla exRunA exClassifier).1.params = exRunA.xFinal :=
  c3_final_params_are_optimizer_iterate.1 [[1]] [0] exArgsCobyla exRunA exClassifier
    (fitBody [[1]] [0] exArgsCobyla exRunA exClassifier) rfl

/-- C4: with the method spelled "cobyla" — which scipy accepts and runs as
COBYLA, since it matches method names case-insensitively — no end-of-iteration
callback ever runs: the inline special case tests `method == "COBYLA"`
case-sensitively, and the registration test `method.lower() not in
('cobyla')` is a substring test against the string "cobyla" (the
parenthesized string is not a tuple), so a run with one evaluation and one
optimizer iteration records no history entry and leaves the iteration
counter at 0.  The exact spellings "COBYLA" and "BFGS" behave as the claim
describes: one entry per evaluation, respectively one per optimizer
iteration. -/
theorem c4_lowercase_cobyla_records_no_history :
    callbackRegistered "cobyla" = false ∧
    (("cobyla" : String) ≠ "COBYLA") ∧
    (fitBody [[1]] [0] ⟨"cobyla", true, false⟩ c4run exClassifier).1.loss_progress = [] ∧
    (fitBody [[1]] [0] ⟨"cobyla", true, false⟩ c4run exClassifier).1.n_iter = 0 ∧
    (fitBody [[1]] [0] ⟨"COBYLA", true, false⟩ c4run exClassifier).1.loss_progress = [some 1] ∧
    (fitBody [[1]] [0] ⟨"BFGS", true, false⟩ c4run exClassifier).1.loss_progress = [some 1] ∧
    callbackRegistered "COBYLA" = false ∧
    callbackRegistered "BFGS" = true :=
  ⟨rfl, by decide, rfl, rfl, rfl, rfl, rfl, rfl⟩

/-- C5 counterexample: under the additive-10-every-2 policy with initial
budget 100, two objective evaluations arriving before any optimizer
iteration completes (a line-search situation under a gradient method) both
see the iteration counter at 0 and both grow the budget, giving 120 shots —
whereas recomputing as a function of the number of objective calls so far,
as the claim states, gives 110 (the second call has index 1, and 1 mod 2 is
not 0). -/
theorem c5_iteration_counter_counterexample :
    (([OptEvent.objCall [0] [1], OptEvent.objCall [0] [2]]).foldl
        (fitStep [[1]] [0] [0] exArgsBfgs) (fitEntry c5c0)).nbshots = some 120 ∧
    shotsByCalls 2 (ShotPolicy.additive 10) (some 100) c5c0.min_loss 2 = some 110 ∧
    (some (120 : ℤ) ≠ some (110 : ℤ)) :=
  ⟨rfl, rfl, by decide⟩

/-- C5 amended: on every objective evaluation the budget is recomputed by
the adaptation policy applied to (current budget, the end-of-iteration
counter `__n_iter__` — which counts callback invocations and equals the
number of objective calls only for the COBYLA special case — and the best
loss observed since construction); the supported policies are identity,
int-truncated multiplicative growth every K counter values, additive
growth every K counter values, and an arbitrary user function of the same
three inputs. -/
theorem c5_policy_applied_to_iteration_counter (i : List (List ℚ)) (t l : List ℚ)
    (a : FitArgs) (c : Classifier) (idx : List ℕ) (p : List ℚ) :
    (to_optimize i t l a c idx p).1.nbshots =
      shotIncrement c.nbshots_incr_delay c.nbshots_increment c.nbshots c.n_iter c.min_loss ∧
    (∀ (d : ℕ) (s : Option ℤ) (n : ℕ) (m : Option ℚ),
      shotIncrement d ShotPolicy.identity s n m = s) ∧
    (∀ (d : ℕ) (q : ℚ) (v : ℤ) (n : ℕ) (m : Option ℚ),
      shotIncrement d (ShotPolicy.multiplicative q) (some v) n m =
        if n % d = 0 then some (truncQ (q * (v : ℚ))) else some v) ∧
    (∀ (d : ℕ) (z v : ℤ) (n : ℕ) (m : Option ℚ),
      shotIncrement d (ShotPolicy.additive z) (some v) n m =
        if n % d = 0 then some (v + z) else some v) ∧
    (∀ (d : ℕ) (f : Option ℤ → ℕ → Option ℚ → Option ℤ) (s : Option ℤ) (n : ℕ)
      (m : Option ℚ), shotIncrement d (ShotPolicy.custom f) s n m = f s n m) :=
  ⟨commit_step_nbshots a (evalState i t l c idx p) p (batchLoss i t l c idx p),
   fun _ _ _ _ => rfl, fun _ _ _ _ _ => rfl, fun _ _ _ _ _ => rfl, fun _ _ _ _ _ => rfl⟩

/-- C6 counterexample: a completed training call leaves `__min_loss__` at 1
and the loss log at [1], and the entry mutation of the next call (line 361,
which resets only `__n_iter__`) does not restore them: the second call
starts with a stale minimum loss (not the fresh infinity it had at
construction) and a non-empty loss log. -/
theorem c6_state_not_reset_counterexample :
    fit [[1]] [0] c6args exRunA exClassifier = Except.ok (c6c1, none) ∧
    exClassifier.min_loss = none ∧ exClassifier.loss_progress = [] ∧
    (fitEntry c6c1).min_loss = some 1 ∧ (some (1 : ℚ) ≠ (none : Option ℚ)) ∧
    (fitEntry c6c1).loss_progress = [some 1] ∧
    ([some (1 : ℚ)] ≠ ([] : List (Option ℚ))) :=
  ⟨rfl, rfl, rfl, rfl, by decide, rfl, by decide⟩

/-- C6 amended: at entry of a training call only the iteration counter is
reset; the minimum loss (set to infinity at construction only), the last
loss/output/parameters and all three progress logs keep their pre-call
values, and the pre-call loss log survives the whole call as a prefix of
the post-call loss log. -/
theorem c6_entry_resets_only_iteration_counter (i : List (List ℚ)) (t : List ℚ)
    (a : FitArgs) (run : OptRun) (c0 : Classifier)
    (out : Classifier × Option SavedArtifact)
    (h : fit i t a run c0 = Except.ok out) :
    ((fitEntry c0).n_iter = 0 ∧
     (fitEntry c0).min_loss = c0.min_loss ∧
     (fitEntry c0).last_loss_value = c0.last_loss_value ∧
     (fitEntry c0).last_output = c0.last_output ∧
     (fitEntry c0).last_params = c0.last_params ∧
     (fitEntry c0).loss_progress = c0.loss_progress ∧
     (fitEntry c0).output_progress = c0.output_progress ∧
     (fitEntry c0).params_progress = c0.params_progress) ∧
    (∃ tail, out.1.loss_progress = c0.loss_progress ++ tail) := by
  refine ⟨⟨rfl, rfl, rfl, rfl, rfl, rfl, rfl, rfl⟩, ?_⟩
  unfold fit at h
  split at h
  · exact absurd h (by simp)
  · injection h with h
    subst h
    obtain ⟨tl, hl⟩ := fitLoopState_loss_progress i t a run c0
    exact ⟨tl, by
      unfold fitBody
      rw [(fitFinalize_frame t a c0.nbshots (fitLoopState i t a run c0)).2.2.1, hl]⟩

/-- C6 witness: the concrete completed call of the counterexample extends
the (empty) pre-call loss log rather than having been reset mid-call. -/
theorem c6_entry_resets_witness :
    ∃ tail, c6c1.loss_progress = exClassifier.loss_progress ++ tail :=
  (c6_entry_resets_only_iteration_counter [[1]] [0] c6args exRunA exClassifier
    (c6c1, none) rfl).2

/-- C7: constructing a classifier with bitstr ["00", "01"] is the same as
constructing it with [0, 1]: the binary strings are converted to their
integer codes at construction, and the two classifiers produce identical
probability predictions and identical label predictions for identical
parameters and inputs. -/
theorem c7_bitstr_strings_equiv_ints (circ : CircuitML) (params : List ℚ)
    (nbshots0 : Option ℤ) (delay0 : Option ℕ) (pol : ShotPolicy)
    (lf : List ℚ → List (List ℚ) → List ℚ → ℚ) (js : Option ℕ) :
    mkClassifier circ [BitstrElem.str "00", BitstrElem.str "01"] params nbshots0 delay0 pol lf js =
      mkClassifier circ [BitstrElem.int 0, BitstrElem.int 1] params nbshots0 delay0 pol lf js ∧
    Except.map (fun c => c.bitstr)
      (mkClassifier circ [BitstrElem.str "00", BitstrElem.str "01"] params nbshots0 delay0 pol lf js) =
      Except.ok [0, 1] ∧
    (∀ X ps,
      Except.map (fun c => (predict_proba c X ps).1)
        (mkClassifier circ [BitstrElem.str "00", BitstrElem.str "01"] params nbshots0 delay0 pol lf js) =
      Except.map (fun c => (predict_proba c X ps).1)
        (mkClassifier circ [BitstrElem.int 0, BitstrElem.int 1] params nbshots0 delay0 pol lf js)) ∧
    (∀ X,
      Except.map (fun c => (predict c X).1)
        (mkClassifier circ [BitstrElem.str "00", BitstrElem.str "01"] params nbshots0 delay0 pol lf js) =
      Except.map (fun c => (predict c X).1)
        (mkClassifier circ [BitstrElem.int 0, BitstrElem.int 1] params nbshots0 delay0 pol lf js)) :=
  ⟨rfl, rfl, fun _ _ => rfl, fun _ => rfl⟩

/-- C8 counterexample: a completed training call with an output-progress
target persists the artifact and clears the output and params buffers, but
the in-memory loss-progress buffer is not cleared — it still holds the
call's loss entry afterwards. -/
theorem c8_loss_buffer_not_cleared_counterexample :
    (fitBody [[1]] [0] c8args exRunA exClassifier).1.loss_progress = [some 1] ∧
    ([some (1 : ℚ)] ≠ ([] : List (Option ℚ))) ∧
    (fitBody [[1]] [0] c8args exRunA exClassifier).1.output_progress = [] ∧
    (fitBody [[1]] [0] c8args exRunA exClassifier).1.params_progress = [] ∧
    (fitBody [[1]] [0] c8args exRunA exClassifier).2 = some
      { output := [[[1]]], labels := [0], loss_value := [some 1], params := [[1]] } :=
  ⟨rfl, by decide, rfl, rfl, rfl⟩

/-- C8 amended: when a training call with an output-progress target
completes, the per-iteration output/labels/loss/params history is
persisted to the artifact and the output and params buffers are cleared,
while the loss-progress buffer keeps exactly the history that was
persisted. -/
theorem c8_output_params_cleared_loss_retained (i : List (List ℚ)) (t : List ℚ)
    (a : FitArgs) (run : OptRun) (c0 : Classifier)
    (out : Classifier × Option SavedArtifact)
    (h1 : a.save_output_progress = true) (h2 : fit i t a run c0 = Except.ok out) :
    out.1.output_progress = [] ∧ out.1.params_progress = [] ∧
    out.2 = some
      { output := (fitLoopState i t a run c0).output_progress
        labels := t
        loss_value := (fitLoopState i t a run c0).loss_progress
        params := (fitLoopState i t a run c0).params_progress } ∧
    out.1.loss_progress = (fitLoopState i t a run c0).loss_progress := by
  unfold fit at h2
  split at h2
  · exact absurd h2 (by simp)
  · injection h2 with h2
    subst h2
    simp [fitBody, fitFinalize, h1]

/-- C8 witness: the concrete completed call of the counterexample has its
output buffer cleared while its loss buffer equals the persisted loss
history. -/
theorem c8_output_params_cleared_witness :
    (fitBody [[1]] [0] c8args exRunA exClassifier).1.output_progress = [] ∧
    (fitBody [[1]] [0] c8args exRunA exClassifier).1.loss_progress =
      (fitLoopState [[1]] [0] c8args exRunA exClassifier).loss_progress := by
  have h := c8_output_params_cleared_loss_retained [[1]] [0] c8args exRunA exClassifier
    (fitBody [[1]] [0] c8args exRunA exClassifier) rfl rfl
  exact ⟨h.1, h.2.2.2⟩

/-- C9: each gate placement of the builder — the parametrized single-qubit
input gate, the two-qubit entangling gate and the two-parameter two-qubit
gate — succeeds exactly when every involved qubit index lies in
[0, nbqbits), and fails with the out-of-range condition otherwise. -/
theorem c9_gate_index_validation (b : MqBuilderS) (i a bq : ℤ) (th th2 ph : ℚ) :
    exceptOk (single_input b i th) = inRangeB b i ∧
    exceptOk (cz b a bq) = (inRangeB b a && inRangeB b bq) ∧
    exceptOk (fsim b a bq th2 ph) = (inRangeB b a && inRangeB b bq) := by
  unfold single_input cz fsim verify_index exceptOk inRangeB
  split_ifs <;> simp_all

/-- C10: `run_circuit` — and with it `predict_proba`, `predict` and the
call operator, also outside any training call — increments `nfev` by
exactly one and changes nothing else: the resulting classifier is the
input classifier with only `nfev` bumped, so parameters, shot budget,
minimum loss and all history buffers are untouched by prediction. -/
theorem c10_prediction_increments_nfev_only (c : Classifier) (X : List (List ℚ))
    (ps : Option (List ℚ)) :
    (run_circuit c X ps).2 = { c with nfev := c.nfev + 1 } ∧
    (predict_proba c X ps).2 = { c with nfev := c.nfev + 1 } ∧
    (predict c X).2 = { c with nfev := c.nfev + 1 } ∧
    (call_operator c X).2 = { c with nfev := c.nfev + 1 } ∧
    (predict c X).2.params = c.params ∧
    (predict c X).2.nbshots = c.nbshots ∧
    (predict c X).2.min_loss = c.min_loss ∧
    (predict c X).2.loss_progress = c.loss_progress ∧
    (predict c X).2.output_progress = c.output_progress ∧
    (predict c X).2.params_progress = c.params_progress ∧
    (predict c X).2.nfev = c.nfev + 1 :=
  ⟨rfl, rfl, rfl, rfl, rfl, rfl, rfl, rfl, rfl, rfl, rfl⟩

end PolyQML
